import Mathlib

/-!
Verification of the ems-dashboard filtering / aggregation / metrics pipeline.

Shallow embedding of the Python source:
  - src/data/data_loader.py        (filter_data)
  - src/dashboard/sidebar.py       (create_sidebar_filters, display_time_series_section)
  - src/dashboard/metrics_calculator.py
      (calculate_dashboard_metrics, get_dominant_component, get_all_dashboard_metrics)
  - src/dashboard/dynamic_dashboard.py (load_dashboard_data)

Modelling conventions:
  - A pandas DataFrame is a `Table`: a column-name list plus a list of rows,
    each row an association list from column name to `Cell`.
  - `Cell.nan` is pandas NaN/NaT; cells missing from a row read as `Cell.nan`
    (this is how `pd.concat` fills columns absent from one side).
  - pandas `mean` skips NaN and yields NaN on an empty/all-NaN selection, so
    means are `Option Rat` with `none` playing the role of NaN.
  - A datetime value already parsed by pandas is `Cell.ts`; `Cell.str` in a
    `Date` column models text that `pd.to_datetime` cannot parse (it raises).
  - Exceptions are `Except Unit`; the Python try/except blocks become matches
    on the `Except` value.
  - File I/O is abstracted by `FS : String -> Option Table`: `none` means
    `pd.read_parquet` raises for that path.
-/

/-! ### Column-name and string constants of the source -/

/-- Column name `Date`. -/
def colDate : String := "Date"

/-- Column name `Total`. -/
def colTotal : String := "Total"

/-- Column name `hour`. -/
def colHour : String := "hour"

/-- Column name `is_weekend`. -/
def colIsWeekend : String := "is_weekend"

/-- Column name `Industry` (added when combining industries). -/
def colIndustry : String := "Industry"

/-- The one-hot column for a building-type label, `Building Type_<label>`. -/
def btCol (sel : String) : String := "Building Type_" ++ sel

/-- The default `building_type_column` of `filter_data`. -/
def btDefault : String := "Building Type_Single Building"

/-- The `All` selector value. -/
def allStr : String := "All"

/-- The `N/A` placeholder. -/
def naStr : String := "N/A"

/-- The industry label `Transport`. -/
def indTransport : String := "Transport"

/-- The industry label `Warehouse`. -/
def indWarehouse : String := "Warehouse"

/-- The building-type label `Tenant`. -/
def indTenant : String := "Tenant"

/-- Python `str.lower()` (the source only lowercases ASCII region/industry
names; `String.toLower` itself is not kernel-reducible, so the character
map is spelled out). -/
def strLower (s : String) : String := ⟨s.data.map Char.toLower⟩

/-! ### Timestamps and cells -/

/-- A pandas Timestamp, compared lexicographically (year, month, day, hour, minute). -/
structure Timestamp where
  year : Nat
  month : Nat
  day : Nat
  hour : Nat
  minute : Nat
deriving DecidableEq

/-- Timestamp order, as pandas compares datetimes. -/
def Timestamp.le (a b : Timestamp) : Bool :=
  if a.year ≠ b.year then decide (a.year < b.year)
  else if a.month ≠ b.month then decide (a.month < b.month)
  else if a.day ≠ b.day then decide (a.day < b.day)
  else if a.hour ≠ b.hour then decide (a.hour < b.hour)
  else decide (a.minute ≤ b.minute)

/-- A Python `datetime.date` as returned by `st.date_input` (no time-of-day). -/
structure PlainDate where
  y : Nat
  m : Nat
  d : Nat
deriving DecidableEq

/-- `pd.Timestamp(date)`: midnight of the calendar date. -/
def PlainDate.toTs (p : PlainDate) : Timestamp :=
  ⟨p.y, p.m, p.d, 0, 0⟩

/-- One DataFrame cell. -/
inductive Cell where
  | num (q : Rat)
  | str (s : String)
  | bool (b : Bool)
  | ts (u : Timestamp)
  | nan
deriving DecidableEq

/-- Elementwise pandas `==` between a cell and a scalar: numbers and booleans
compare numerically (True == 1), NaN compares unequal to everything, and
values of unrelated types compare unequal. -/
def Cell.pyEq : Cell → Cell → Bool
  | .num a, .num b => decide (a = b)
  | .num a, .bool b => decide (a = (if b then (1 : Rat) else 0))
  | .bool a, .num b => decide ((if a then (1 : Rat) else 0) = b)
  | .bool a, .bool b => a == b
  | .str a, .str b => a == b
  | .ts a, .ts b => a == b
  | _, _ => false

/-- Numeric reading of a cell, as pandas numeric reductions see it
(booleans count as 0/1; NaN and non-numeric cells are skipped). -/
def cellNum : Cell → Option Rat
  | .num q => some q
  | .bool b => some (if b then 1 else 0)
  | _ => none

/-- `series >= pd.Timestamp(...)` on one cell; NaT/non-datetime compare false. -/
def tsGeB (c : Cell) (t : Timestamp) : Bool :=
  match c with
  | .ts u => Timestamp.le t u
  | _ => false

/-- `series <= pd.Timestamp(...)` on one cell; NaT/non-datetime compare false. -/
def tsLeB (c : Cell) (t : Timestamp) : Bool :=
  match c with
  | .ts u => Timestamp.le u t
  | _ => false

/-- `series >= q` on one cell (numeric); NaN compares false. -/
def numGeB (c : Cell) (q : Rat) : Bool :=
  match cellNum c with
  | some v => decide (q ≤ v)
  | none => false

/-! ### Tables -/

/-- A DataFrame row: association list from column name to cell. -/
abbrev Row := List (String × Cell)

/-- Read one cell of a row; a column missing from the row reads as NaN. -/
def getCell (r : Row) (c : String) : Cell :=
  match r.find? (fun p => decide (p.1 = c)) with
  | some p => p.2
  | none => Cell.nan

/-- A pandas DataFrame: declared columns plus rows. -/
structure Table where
  cols : List String
  rows : List Row
deriving DecidableEq

/-- The values of one column, top to bottom. -/
def colCells (t : Table) (c : String) : List Cell :=
  t.rows.map (fun r => getCell r c)

/-- The numeric values of a list of cells (NaN and non-numeric skipped). -/
def numsOf (cells : List Cell) : List Rat :=
  cells.filterMap cellNum

/-- pandas `Series.mean()`: skips NaN; NaN (`none`) on an empty selection. -/
def meanOpt (cells : List Cell) : Option Rat :=
  let ns := numsOf cells
  if ns.length = 0 then none else some (ns.sum / (ns.length : Rat))

/-- pandas `Series.sum()`: skips NaN; 0 on an empty selection. -/
def sumCells (cells : List Cell) : Rat :=
  (numsOf cells).sum

/-- Column-wise sum `df[c].sum()`. -/
def sumCol (t : Table) (c : String) : Rat :=
  sumCells (colCells t c)

/-- `df["Industry"] = value`: the column is appended to the schema if new,
and every row gets the value. -/
def addCol (t : Table) (c : String) (v : Cell) : Table :=
  { cols := if c ∈ t.cols then t.cols else t.cols ++ [c],
    rows := t.rows.map (fun r => r.filter (fun p => decide (p.1 ≠ c)) ++ [(c, v)]) }

/-- `pd.concat([a, b], ignore_index=True)`: rows of `a` then rows of `b`;
the schema is the union of both schemas (cells absent from a row read NaN). -/
def concatTables (a b : Table) : Table :=
  { cols := a.cols ++ b.cols.filter (fun c => decide (c ∉ a.cols)),
    rows := a.rows ++ b.rows }

/-! ### Sorted group keys (pandas `groupby` sorts its keys ascending) -/

/-- Insert a key into a strictly-sorted key list, keeping it strictly sorted
and duplicate-free. -/
def insKey {α : Type} [LinearOrder α] (x : α) : List α → List α
  | [] => [x]
  | y :: ys => if x < y then x :: y :: ys else if x = y then y :: ys else y :: insKey x ys

/-- The strictly-sorted list of distinct keys of a list, as `groupby` orders
its groups. -/
def sortKeys {α : Type} [LinearOrder α] (l : List α) : List α :=
  l.foldr insKey []

/-! ### Filter Stage -/

/-- sidebar.py lines 109-114: the date-range filter of `create_sidebar_filters`.
Keeps rows with `df["Date"] >= pd.Timestamp(start_date)` and
`df["Date"] <= pd.Timestamp(end_date)`; no-op when `Date` is absent.
(The `Date` column has already been converted with `pd.to_datetime` at the
top of the function, so its cells are datetimes.) -/
def dateFilter (t : Table) (s e : PlainDate) : Table :=
  if colDate ∈ t.cols then
    { cols := t.cols,
      rows := t.rows.filter (fun r =>
        tsGeB (getCell r colDate) s.toTs && tsLeB (getCell r colDate) e.toTs) }
  else t

/-- sidebar.py lines 116-122: the building-type filter of
`create_sidebar_filters`. `"All"` is a no-op; otherwise rows with
`df["Building Type_<label>"] == 1` are kept when that column exists,
else no-op. -/
def buildingFilter (t : Table) (sel : String) : Table :=
  if sel = allStr then t
  else
    if btCol sel ∈ t.cols then
      { cols := t.cols,
        rows := t.rows.filter (fun r => (getCell r (btCol sel)).pyEq (Cell.num 1)) }
    else t

/-- sidebar.py `create_sidebar_filters`, filtering part: date filter then
building-type filter (the widget-reading part is UI, out of scope). -/
def create_sidebar_filters (t : Table) (s e : PlainDate) (sel : String) : Table :=
  buildingFilter (dateFilter t s e) sel

/-- The filters dict taken by data_loader.py `filter_data`.
`date_range = some (s, e)` models the key being present with both dates set. -/
structure Filters where
  date_range : Option (PlainDate × PlainDate)
  building_type : Option String
  building_type_column : Option String
  min_consumption : Option Rat

/-- data_loader.py lines 83-133: `filter_data`. Empty frames pass through;
the date filter compares `Date` against `pd.to_datetime(start/end)`;
the building-type filter compares the one-hot column against the
`building_type` value itself (a string) with pandas `==`; the
`min_consumption` filter keeps `Total >= threshold`. -/
def filter_data (t : Table) (f : Filters) : Table :=
  if t.rows = [] then t
  else
    let t1 :=
      match f.date_range with
      | some (s, e) =>
        if colDate ∈ t.cols then
          { cols := t.cols,
            rows := t.rows.filter (fun r =>
              tsGeB (getCell r colDate) s.toTs && tsLeB (getCell r colDate) e.toTs) }
        else t
      | none => t
    let t2 :=
      match f.building_type with
      | some bt =>
        if bt = allStr then t1
        else
          let bcol := f.building_type_column.getD btDefault
          if bcol ∈ t1.cols then
            { cols := t1.cols,
              rows := t1.rows.filter (fun r => (getCell r bcol).pyEq (Cell.str bt)) }
          else t1
      | none => t1
    match f.min_consumption with
    | some q =>
      if colTotal ∈ t2.cols then
        { cols := t2.cols, rows := t2.rows.filter (fun r => numGeB (getCell r colTotal) q) }
      else t2
    | none => t2

/-! ### Aggregation Stage (sidebar.py `display_time_series_section`, Monthly) -/

/-- The month period `df["Date"].dt.to_period("M")` of a row: the (year, month)
of its datetime, ordered lexicographically; `none` (NaT) when the Date cell
is NaN. -/
def monthOf (r : Row) : Option (Nat ×ₗ Nat) :=
  match getCell r colDate with
  | .ts u => some (toLex (u.year, u.month))
  | _ => none

/-- The (month, Total) pairs of the rows that carry a month; rows whose key is
NaT are dropped, exactly as `groupby` drops NaN keys. -/
def monthPairs (t : Table) : List ((Nat ×ₗ Nat) × Cell) :=
  t.rows.filterMap (fun r => (monthOf r).map (fun k => (k, getCell r colTotal)))

/-- The summed `Total` of one month group (`sum` skips NaN; empty sums to 0). -/
def monthTotal (t : Table) (k : Nat ×ₗ Nat) : Rat :=
  sumCells (((monthPairs t).filter (fun p => decide (p.1 = k))).map Prod.snd)

/-- `df.groupby(df["Date"].dt.to_period("M"))["Total"].sum()`: one entry per
distinct month, keys ascending. -/
def monthlyGroups (t : Table) : List ((Nat ×ₗ Nat) × Rat) :=
  (sortKeys ((monthPairs t).map Prod.fst)).map (fun k => (k, monthTotal t k))

/-- Is a cell usable as a datetime by the `.dt` accessor (datetime or NaT)? -/
def dateCellOk : Cell → Bool
  | .ts _ => true
  | .nan => true
  | _ => false

/-- sidebar.py lines 264-268, the Monthly branch of
`display_time_series_section`: raises (KeyError / non-datetime `.dt`) when
`Date` or `Total` is missing or the `Date` column is not datetime-typed,
otherwise the monthly groupby-sum. -/
def aggregateMonthly (t : Table) : Except Unit (List ((Nat ×ₗ Nat) × Rat)) :=
  if (colDate ∈ t.cols ∧ colTotal ∈ t.cols) ∧ (colCells t colDate).all dateCellOk then
    .ok (monthlyGroups t)
  else .error ()

/-! ### Metrics Stage (metrics_calculator.py) -/

/-- The fixed-shape metrics dict built by `calculate_dashboard_metrics`.
`avg_energy`, `weekend_avg`, `weekday_avg` are `Option Rat` because pandas
means can be NaN (`none`); the code's integer defaults are `some 0`. -/
structure MetricsResult where
  region : String
  industry : String
  total_records : Nat
  avg_energy : Option Rat
  peak_hour : Rat
  weekend_avg : Option Rat
  weekday_avg : Option Rat
  date_range : String
  dominant_component : String
deriving DecidableEq

/-- The default metrics dict returned by the `except` branch of
`calculate_dashboard_metrics` (lines 87-99). -/
def defaultMetrics (region industry : String) : MetricsResult :=
  { region := region, industry := industry, total_records := 0,
    avg_energy := some 0, peak_hour := 0, weekend_avg := some 0,
    weekday_avg := some 0, date_range := naStr, dominant_component := naStr }

/-- The fixed candidate component list of `get_dominant_component`. -/
def energyCols : List String :=
  ["AC", "Lighting", "Power", "Lamp", "Refrigeration", "Other"]

/-- The candidate components present in the table, in the fixed order. -/
def availableCols (t : Table) : List String :=
  energyCols.filter (fun c => decide (c ∈ t.cols))

/-- `Series.idxmax()` over an index list with current best `best`: the first
index whose value strictly exceeds every earlier one wins. -/
def idxmaxBy (f : String → Rat) : String → List String → String
  | best, [] => best
  | best, c :: cs => if f best < f c then idxmaxBy f c cs else idxmaxBy f best cs

/-- metrics_calculator.py lines 102-110: `get_dominant_component`. -/
def get_dominant_component (t : Table) : String :=
  match availableCols t with
  | [] => naStr
  | c :: cs => idxmaxBy (sumCol t) c cs

/-- The (hour, Total) pairs used by the `groupby("hour")` in the metrics;
NaN hour keys are dropped. -/
def hourPairs (t : Table) : List (Rat × Cell) :=
  t.rows.filterMap (fun r => (cellNum (getCell r colHour)).map (fun h => (h, getCell r colTotal)))

/-- The mean `Total` of one hour group. -/
def hourMean (t : Table) (k : Rat) : Option Rat :=
  meanOpt (((hourPairs t).filter (fun p => decide (p.1 = k))).map Prod.snd)

/-- `df.groupby("hour")["Total"].mean().idxmax()`: group keys ascending, NaN
group means skipped by `idxmax`; raises ValueError when no group has a
non-NaN mean (in particular on an empty frame). -/
def peakHourE (t : Table) : Except Unit Rat :=
  match (sortKeys ((hourPairs t).map Prod.fst)).filterMap
      (fun k => (hourMean t k).map (fun v => (k, v))) with
  | [] => .error ()
  | q :: qs => .ok (qs.foldl (fun a b => if a.2 < b.2 then b else a) q).1

/-- The `peak_hour` entry (lines 62-66): the groupby-idxmax when both `hour`
and `Total` exist, else the literal 0. -/
def peakHourField (t : Table) : Except Unit Rat :=
  if colHour ∈ t.cols ∧ colTotal ∈ t.cols then peakHourE t else .ok 0

/-- One cell under `pd.to_datetime`: datetimes pass through, NaN becomes NaT,
anything unparseable raises. -/
def parseTs : Cell → Except Unit (Option Timestamp)
  | .ts u => .ok (some u)
  | .nan => .ok none
  | _ => .error ()

/-- `pd.to_datetime` over a whole column: raises if any cell is unparseable. -/
def parseDates : List Cell → Except Unit (List (Option Timestamp))
  | [] => .ok []
  | c :: cs =>
    match parseTs c, parseDates cs with
    | .ok o, .ok rest => .ok (o :: rest)
    | _, _ => .error ()

/-- `Series.min()` over datetimes: NaT skipped; `none` (NaT) when empty. -/
def minTs (l : List Timestamp) : Option Timestamp :=
  l.foldl (fun acc u =>
    match acc with
    | none => some u
    | some v => some (if Timestamp.le u v then u else v)) none

/-- `Series.max()` over datetimes: NaT skipped; `none` (NaT) when empty. -/
def maxTs (l : List Timestamp) : Option Timestamp :=
  l.foldl (fun acc u =>
    match acc with
    | none => some u
    | some v => some (if Timestamp.le v u then u else v)) none

/-- Left zero-pad a decimal numeral to two digits. -/
def pad2 (n : Nat) : String :=
  if n < 10 then "0" ++ toString n else toString n

/-- Left zero-pad a decimal numeral to four digits. -/
def pad4 (n : Nat) : String :=
  if n < 10 then "000" ++ toString n
  else if n < 100 then "00" ++ toString n
  else if n < 1000 then "0" ++ toString n
  else toString n

/-- `strftime("%Y-%m-%d")`. -/
def fmtTs (u : Timestamp) : String :=
  pad4 u.year ++ "-" ++ pad2 u.month ++ "-" ++ pad2 u.day

/-- The `date_range` entry (lines 77-81):
the formatted `min to max` ISO-date string over `pd.to_datetime(df["Date"])` when
`Date` exists (raising on an unparseable date, and on `strftime` of NaT when
the column is empty or all-NaT), else the literal "N/A". -/
def dateRangeField (t : Table) : Except Unit String :=
  if colDate ∈ t.cols then
    match parseDates (colCells t colDate) with
    | .error e => .error e
    | .ok parsed =>
      match minTs (parsed.filterMap id), maxTs (parsed.filterMap id) with
      | some a, some b => .ok (fmtTs a ++ " to " ++ fmtTs b)
      | _, _ => .error ()
  else .ok naStr

/-- Rows selected by `df[df["is_weekend"] == b]`. -/
def weekendRows (t : Table) (b : Bool) : List Row :=
  t.rows.filter (fun r => (getCell r colIsWeekend).pyEq (Cell.bool b))

/-- metrics_calculator.py lines 56-85: the metrics dict built inside the
`try`. Any raise from a sub-computation aborts the whole dict (the single
`except` catches it); the order entries are evaluated in does not change
which dict is returned, so the two entries that can raise are checked
first here. -/
def computeMetricsCore (region industry : String) (t : Table) : Except Unit MetricsResult :=
  match dateRangeField t with
  | .error e => .error e
  | .ok dr =>
    match peakHourField t with
    | .error e => .error e
    | .ok pk =>
      .ok { region := region, industry := industry,
            total_records := t.rows.length,
            avg_energy := if colTotal ∈ t.cols then meanOpt (colCells t colTotal) else some 0,
            peak_hour := pk,
            weekend_avg :=
              if colIsWeekend ∈ t.cols ∧ colTotal ∈ t.cols then
                meanOpt ((weekendRows t true).map (fun r => getCell r colTotal))
              else some 0,
            weekday_avg :=
              if colIsWeekend ∈ t.cols ∧ colTotal ∈ t.cols then
                meanOpt ((weekendRows t false).map (fun r => getCell r colTotal))
              else some 0,
            date_range := dr,
            dominant_component := get_dominant_component t }

/-- The metrics stage applied to an already-loaded table: the `try` body with
the shared `except` fallback. -/
def metricsOfTable (region industry : String) (t : Table) : MetricsResult :=
  match computeMetricsCore region industry t with
  | .ok m => m
  | .error _ => defaultMetrics region industry

/-- The file system seen by the loaders: `none` means `pd.read_parquet` raises. -/
abbrev FS := String → Option Table

/-- metrics_calculator.py lines 24-33 and 45-53: the parquet path used by
`calculate_dashboard_metrics` for one region/industry, with the
`sample_` filename prefix for the Kanto region. -/
def metricsPath (region industry : String) : String :=
  if strLower region = "kanto" then
    "data/processed/sample_" ++ strLower region ++ "_" ++ strLower industry ++ ".parquet"
  else
    "data/processed/" ++ strLower region ++ "_" ++ strLower industry ++ ".parquet"

/-- dynamic_dashboard.py lines 24-25 and 38: the parquet path used by
`load_dashboard_data` (no sampling, every region alike). -/
def dashPath (region industry : String) : String :=
  "data/processed/" ++ strLower region ++ "_" ++ strLower industry ++ ".parquet"

/-- The loading block of `calculate_dashboard_metrics` (lines 19-54): for
industry "All", read the transport and warehouse files, tag each with an
`Industry` column and concatenate; otherwise read the single file. A
failed read raises. -/
def loadForMetrics (fs : FS) (region industry : String) : Except Unit Table :=
  if strLower industry = "all" then
    match fs (metricsPath region indTransport), fs (metricsPath region indWarehouse) with
    | some a, some b =>
      .ok (concatTables (addCol a colIndustry (Cell.str indTransport))
                        (addCol b colIndustry (Cell.str indWarehouse)))
    | _, _ => .error ()
  else
    match fs (metricsPath region industry) with
    | some d => .ok d
    | none => .error ()

/-- metrics_calculator.py lines 8-99: `calculate_dashboard_metrics`. The one
`try`/`except` wraps loading and every metric entry; any failure anywhere
returns the all-default dict. -/
def calculate_dashboard_metrics (fs : FS) (region industry : String) : MetricsResult :=
  match loadForMetrics fs region industry with
  | .error _ => defaultMetrics region industry
  | .ok df => metricsOfTable region industry df

/-- dynamic_dashboard.py lines 19-43: `load_dashboard_data` (returns None on
any load failure). -/
def load_dashboard_data (fs : FS) (region industry : String) : Option Table :=
  if strLower industry = "all" then
    match fs (dashPath region indTransport), fs (dashPath region indWarehouse) with
    | some a, some b =>
      some (concatTables (addCol a colIndustry (Cell.str indTransport))
                         (addCol b colIndustry (Cell.str indWarehouse)))
    | _, _ => none
  else fs (dashPath region industry)

/-- metrics_calculator.py lines 115-122: the fixed combination list. -/
def combinations : List (String × String) :=
  [("Kansai", "Transport"), ("Kansai", "Warehouse"), ("Kansai", "All"),
   ("Kanto", "Transport"), ("Kanto", "Warehouse"), ("Kanto", "All")]

/-- metrics_calculator.py lines 113-129: `get_all_dashboard_metrics`. -/
def get_all_dashboard_metrics (fs : FS) : List MetricsResult :=
  combinations.map (fun c => calculate_dashboard_metrics fs c.1 c.2)

/-! ### Concrete tables and file systems used by scenarios, witnesses and
counterexamples -/

/-- The file system with no readable files. -/
def fsNone : FS := fun _ => none

/-- A one-row table whose Date cell is text that `pd.to_datetime` cannot
parse, with a perfectly computable `Total` column next to it. -/
def tblC1 : Table :=
  ⟨["Date", "Total"], [[(colDate, Cell.str "not-a-date"), (colTotal, Cell.num 10)]]⟩

/-- A file system serving `tblC1` as the Kansai transport dataset. -/
def fsC1 : FS :=
  fun p => if p = "data/processed/kansai_transport.parquet" then some tblC1 else none

/-- A row dated 2013-01-05 13:00 (calendar date 2013-01-05, nonzero
time-of-day). -/
def rowC2 : Row := [(colDate, Cell.ts ⟨2013, 1, 5, 13, 0⟩)]

/-- A table holding only `rowC2`. -/
def tblC2 : Table := ⟨["Date"], [rowC2]⟩

/-- The calendar date 2013-01-05. -/
def dayC2 : PlainDate := ⟨2013, 1, 5⟩

/-- A table with a `Building Type_Tenant` one-hot column: first row flagged 1,
second row flagged 0. -/
def tblC3 : Table :=
  ⟨["Building Type_Tenant"],
   [[(btCol indTenant, Cell.num 1)], [(btCol indTenant, Cell.num 0)]]⟩

/-- The `filter_data` criteria selecting the Tenant building type with its
column name given explicitly. -/
def fltC3 : Filters := ⟨none, some indTenant, some (btCol indTenant), none⟩

/-- A file system serving the plain (non-sample) Kanto transport path only. -/
def fsC4 : FS :=
  fun p => if p = "data/processed/kanto_transport.parquet" then some ⟨[], []⟩ else none

/-- The spec scenario table: rows dated 2013-01-15 and 2013-01-28 with
Total 10 and 20. -/
def scenC5 : Table :=
  ⟨["Date", "Total"],
   [[(colDate, Cell.ts ⟨2013, 1, 15, 0, 0⟩), (colTotal, Cell.num 10)],
    [(colDate, Cell.ts ⟨2013, 1, 28, 0, 0⟩), (colTotal, Cell.num 20)]]⟩

/-- The spec scenario table: AC=100, Lighting=50, Power=50. -/
def scenC6 : Table :=
  ⟨["AC", "Lighting", "Power"],
   [[("AC", Cell.num 100), ("Lighting", Cell.num 50), ("Power", Cell.num 50)]]⟩

/-- A one-row table with `is_weekend` false and `Total` 10: the weekend class
is empty while the columns are present. -/
def tblC7 : Table :=
  ⟨["is_weekend", "Total"], [[(colIsWeekend, Cell.bool false), (colTotal, Cell.num 10)]]⟩

/-- The metrics dict the metrics stage computes over `tblC7`. -/
def mC7 : MetricsResult :=
  { region := "Kansai", industry := "Transport", total_records := 1,
    avg_energy := some 10, peak_hour := 0, weekend_avg := none,
    weekday_avg := some 10, date_range := naStr, dominant_component := naStr }

/-! ## Helper lemmas -/

/-- Membership in a sorted-insert. -/
theorem mem_insKey {α : Type} [LinearOrder α] (x a : α) (l : List α) :
    a ∈ insKey x l ↔ a = x ∨ a ∈ l := by
  induction l with
  | nil => simp [insKey]
  | cons y ys ih =>
    by_cases h1 : x < y
    · simp [insKey, h1]
    · by_cases h2 : x = y
      · subst h2
        simp [insKey, h1]
      · simp [insKey, h1, h2, ih]
        tauto

/-- Sorted-insert preserves strict sortedness. -/
theorem sorted_insKey {α : Type} [LinearOrder α] (x : α) (l : List α)
    (h : l.Pairwise (· < ·)) : (insKey x l).Pairwise (· < ·) := by
  induction l with
  | nil => simp [insKey]
  | cons y ys ih =>
    rcases List.pairwise_cons.mp h with ⟨hy, hys⟩
    by_cases h1 : x < y
    · simp only [insKey, if_pos h1]
      refine List.pairwise_cons.mpr ⟨?_, h⟩
      intro z hz
      rcases List.mem_cons.mp hz with rfl | hz
      · exact h1
      · exact lt_trans h1 (hy z hz)
    · by_cases h2 : x = y
      · subst h2
        simp only [insKey, if_neg h1, if_pos rfl]
        exact h
      · have hyx : y < x := lt_of_le_of_ne (not_lt.mp h1) (Ne.symm h2)
        simp only [insKey, if_neg h1, if_neg h2]
        refine List.pairwise_cons.mpr ⟨?_, ih hys⟩
        intro z hz
        rcases (mem_insKey x z ys).mp hz with rfl | hz
        · exact hyx
        · exact hy z hz

/-- `sortKeys` keeps exactly the keys of its input. -/
theorem mem_sortKeys {α : Type} [LinearOrder α] (a : α) (l : List α) :
    a ∈ sortKeys l ↔ a ∈ l := by
  induction l with
  | nil => simp [sortKeys]
  | cons y ys ih =>
    have h0 : sortKeys (y :: ys) = insKey y (sortKeys ys) := rfl
    rw [h0, mem_insKey]
    simp [ih]

/-- `sortKeys` output is strictly ascending. -/
theorem sorted_sortKeys {α : Type} [LinearOrder α] (l : List α) :
    (sortKeys l).Pairwise (· < ·) := by
  induction l with
  | nil => simp [sortKeys]
  | cons y ys ih => exact sorted_insKey y (sortKeys ys) ih

/-- When nothing beats the running best, `idxmaxBy` keeps it. -/
theorem idxmaxBy_all_le (f : String → Rat) (l : List String) (best : String)
    (h : ∀ c ∈ l, f c ≤ f best) : idxmaxBy f best l = best := by
  induction l generalizing best with
  | nil => rfl
  | cons p ps ih =>
    have hp : ¬ f best < f p := not_lt.mpr (h p (List.mem_cons_self p ps))
    simp only [idxmaxBy, if_neg hp]
    exact ih best (fun c hc => h c (List.mem_cons_of_mem p hc))

/-- `idxmaxBy` returns the first maximiser: either the running best dominates
everything, or the result splits the list into a strictly-smaller earlier
part and a no-greater later part. -/
theorem idxmaxBy_split (f : String → Rat) :
    ∀ (l : List String) (best : String),
      (idxmaxBy f best l = best ∧ ∀ c ∈ l, f c ≤ f best) ∨
      (∃ l1 c l2, l = l1 ++ c :: l2 ∧ idxmaxBy f best l = c ∧ f best < f c ∧
        (∀ q ∈ l1, f q < f c) ∧ (∀ q ∈ l2, f q ≤ f c)) := by
  intro l
  induction l with
  | nil => exact fun best => Or.inl ⟨rfl, by simp⟩
  | cons p ps ih =>
    intro best
    by_cases hbp : f best < f p
    · rcases ih p with ⟨he, hall⟩ | ⟨l1, c, l2, hs, hres, hlt, h1, h2⟩
      · refine Or.inr ⟨[], p, ps, by simp, ?_, hbp, by simp, hall⟩
        simp only [idxmaxBy, if_pos hbp]
        exact he
      · refine Or.inr ⟨p :: l1, c, l2, by rw [hs]; simp, ?_, lt_trans hbp hlt, ?_, h2⟩
        · simp only [idxmaxBy, if_pos hbp]
          exact hres
        · intro q hq
          rcases List.mem_cons.mp hq with rfl | hq
          · exact hlt
          · exact h1 q hq
    · rcases ih best with ⟨he, hall⟩ | ⟨l1, c, l2, hs, hres, hlt, h1, h2⟩
      · refine Or.inl ⟨?_, ?_⟩
        · simp only [idxmaxBy, if_neg hbp]
          exact he
        · intro c hc
          rcases List.mem_cons.mp hc with rfl | hc
          · exact not_lt.mp hbp
          · exact hall c hc
      · refine Or.inr ⟨p :: l1, c, l2, by rw [hs]; simp, ?_, hlt, ?_, h2⟩
        · simp only [idxmaxBy, if_neg hbp]
          exact hres
        · intro q hq
          rcases List.mem_cons.mp hq with rfl | hq
          · exact lt_of_le_of_lt (not_lt.mp hbp) hlt
          · exact h1 q hq

/-- Every column of a rowless table sums to 0. -/
theorem sumCol_empty (cols : List String) (c : String) : sumCol ⟨cols, []⟩ c = 0 := by
  simp [sumCol, sumCells, colCells, numsOf]

/-! ## Claim theorems -/

/-- C6: `get_dominant_component` returns the candidate column present in the
table with the largest column-wise sum, ties broken in favour of the
candidate listed first in the fixed order (the result splits the available
candidates into a strictly-smaller earlier part and a no-greater later
part), and returns "N/A" exactly when none of the six candidates is a
column of the table; on the spec scenario AC=100/Lighting=50/Power=50 it
returns "AC". -/
theorem get_dominant_component_spec (t : Table) :
    (availableCols t = [] ↔ ∀ c ∈ energyCols, c ∉ t.cols) ∧
    (availableCols t = [] → get_dominant_component t = naStr) ∧
    (availableCols t ≠ [] →
      ∃ a1 a2, availableCols t = a1 ++ get_dominant_component t :: a2 ∧
        (∀ q ∈ a1, sumCol t q < sumCol t (get_dominant_component t)) ∧
        (∀ q ∈ a2, sumCol t q ≤ sumCol t (get_dominant_component t))) ∧
    get_dominant_component scenC6 = "AC" := by
  refine ⟨?_, ?_, ?_, ?_⟩
  · simp [availableCols, List.filter_eq_nil_iff]
  · intro h
    simp [get_dominant_component, h]
  · intro hne
    cases h : availableCols t with
    | nil => exact absurd h hne
    | cons c cs =>
      have hg : get_dominant_component t = idxmaxBy (sumCol t) c cs := by
        simp [get_dominant_component, h]
      rcases idxmaxBy_split (sumCol t) cs c with ⟨he, hall⟩ | ⟨l1, d, l2, hs, hres, hlt, h1, h2⟩
      · refine ⟨[], cs, ?_, by simp, ?_⟩
        · rw [hg, he]
          rfl
        · rw [hg, he]
          simpa using hall
      · refine ⟨c :: l1, l2, ?_, ?_, ?_⟩
        · rw [hg, hres, hs]
          simp
        · intro q hq
          rw [hg, hres]
          rcases List.mem_cons.mp hq with rfl | hq
          · exact hlt
          · exact h1 q hq
        · intro q hq
          rw [hg, hres]
          exact h2 q hq
  · simp [get_dominant_component, availableCols, energyCols, scenC6, idxmaxBy, sumCol, sumCells,
      colCells, numsOf, cellNum, getCell, List.find?]
    norm_num

/-- C6 witness: the dominance split instantiated on the spec scenario table. -/
theorem get_dominant_component_spec_witness :
    ∃ a1 a2, availableCols scenC6 = a1 ++ get_dominant_component scenC6 :: a2 ∧
      (∀ q ∈ a1, sumCol scenC6 q < sumCol scenC6 (get_dominant_component scenC6)) ∧
      (∀ q ∈ a2, sumCol scenC6 q ≤ sumCol scenC6 (get_dominant_component scenC6)) :=
  (get_dominant_component_spec scenC6).2.2.1 (by simp [availableCols, energyCols, scenC6])

/-- C5: whenever the Monthly aggregation runs without raising, its keys are
strictly ascending months, the keys are exactly the months carried by the
rows, each value is the summed Total of its month, and the spec scenario
(2013-01-15 with 10, 2013-01-28 with 20) yields the single bucket
2013-01 with 30. -/
theorem aggregateMonthly_spec :
    (∀ (t : Table) (l : List ((Nat ×ₗ Nat) × Rat)), aggregateMonthly t = .ok l →
      (l.map Prod.fst).Pairwise (· < ·) ∧
      (∀ k, k ∈ l.map Prod.fst ↔ ∃ r ∈ t.rows, monthOf r = some k) ∧
      (∀ kv ∈ l, kv.2 = monthTotal t kv.1)) ∧
    aggregateMonthly scenC5 = .ok [(toLex (2013, 1), 30)] := by
  constructor
  · intro t l h
    unfold aggregateMonthly at h
    split at h
    case isFalse => simp at h
    case isTrue hc =>
    have hl : l = monthlyGroups t := by
      injection h with h2
      exact h2.symm
    subst hl
    have hcomp : (Prod.fst ∘ fun k : Nat ×ₗ Nat => (k, monthTotal t k)) = id := rfl
    have hmap : (monthlyGroups t).map Prod.fst = sortKeys ((monthPairs t).map Prod.fst) := by
      rw [monthlyGroups, List.map_map, hcomp, List.map_id]
    refine ⟨?_, ?_, ?_⟩
    · rw [hmap]
      exact sorted_sortKeys _
    · intro k
      rw [hmap, mem_sortKeys]
      simp only [monthPairs, List.mem_map, List.mem_filterMap]
      constructor
      · rintro ⟨p, ⟨r, hr, hp⟩, rfl⟩
        rcases Option.map_eq_some'.mp hp with ⟨k0, hk0, hpair⟩
        exact ⟨r, hr, by rw [hk0, ← hpair]⟩
      · rintro ⟨r, hr, hk⟩
        exact ⟨(k, getCell r colTotal), ⟨r, hr, by rw [hk]; rfl⟩, rfl⟩
    · intro kv hkv
      rcases List.mem_map.mp hkv with ⟨k, hk, rfl⟩
      rfl
  · simp [aggregateMonthly, scenC5, monthlyGroups, monthPairs, monthOf, monthTotal, sortKeys,
      insKey, sumCells, numsOf, cellNum, getCell, List.find?, colCells, dateCellOk, colDate,
      colTotal]
    norm_num

/-- C5 witness: the sortedness conclusion instantiated on the spec scenario,
with the aggregation hypothesis discharged by evaluation. -/
theorem aggregateMonthly_spec_witness :
    (List.map Prod.fst [(toLex ((2013 : Nat), (1 : Nat)), (30 : Rat))]).Pairwise (· < ·) :=
  (aggregateMonthly_spec.1 scenC5 [(toLex (2013, 1), 30)]
    (by simp [aggregateMonthly, scenC5, monthlyGroups, monthPairs, monthOf, monthTotal, sortKeys,
      insKey, sumCells, numsOf, cellNum, getCell, List.find?, colCells, dateCellOk, colDate,
      colTotal]
        norm_num)).1

/-- C2: the sidebar date filter is a no-op when Date is absent; otherwise it
keeps exactly the rows whose full Date timestamp lies between midnight of
start_date and midnight of end_date. Hence the start bound does behave
calendar-wise (any time-of-day on the start date passes), but a row whose
calendar date equals end_date with a nonzero time-of-day is dropped: the
comparison is on full timestamps, not calendar dates. -/
theorem dateFilter_spec (t : Table) (s e : PlainDate) :
    (colDate ∉ t.cols → dateFilter t s e = t) ∧
    (colDate ∈ t.cols →
      (dateFilter t s e).cols = t.cols ∧
      (dateFilter t s e).rows = t.rows.filter (fun r =>
        tsGeB (getCell r colDate) s.toTs && tsLeB (getCell r colDate) e.toTs)) ∧
    (∀ u : Timestamp, u.year = s.y → u.month = s.m → u.day = s.d →
      tsGeB (Cell.ts u) s.toTs = true) ∧
    (∀ u : Timestamp, u.year = e.y → u.month = e.m → u.day = e.d →
      (0 < u.hour ∨ 0 < u.minute) → tsLeB (Cell.ts u) e.toTs = false) := by
  refine ⟨?_, ?_, ?_, ?_⟩
  · intro h
    simp [dateFilter, h]
  · intro h
    simp [dateFilter, h]
  · intro u hy hm hd
    have h0 : tsGeB (Cell.ts u) s.toTs = Timestamp.le ⟨s.y, s.m, s.d, 0, 0⟩ u := rfl
    rw [h0]
    simp only [Timestamp.le, hy, hm, hd, ne_eq, not_true_eq_false, if_false]
    split <;> rename_i h1 <;> simp_all <;> omega
  · intro u hy hm hd hpos
    have h0 : tsLeB (Cell.ts u) e.toTs = Timestamp.le u ⟨e.y, e.m, e.d, 0, 0⟩ := rfl
    rw [h0]
    simp only [Timestamp.le, hy, hm, hd, ne_eq, not_true_eq_false, if_false]
    split <;> rename_i h1
    all_goals simp_all
    all_goals omega

/-- C2 witness: the end-bound exclusion instantiated at 2013-01-05 13:00
against the range ending 2013-01-05. -/
theorem dateFilter_spec_witness :
    tsLeB (Cell.ts ⟨2013, 1, 5, 13, 0⟩) dayC2.toTs = false :=
  (dateFilter_spec tblC2 dayC2 dayC2).2.2.2 ⟨2013, 1, 5, 13, 0⟩ rfl rfl rfl
    (Or.inl (by decide))

/-- C2 counterexample: a row dated 2013-01-05 13:00 is dropped by the filter
for the range 2013-01-05 to 2013-01-05, although its calendar date lies
inside the range — the claimed calendar-date semantics does not hold. -/
theorem dateFilter_drops_end_date_afternoon :
    (dateFilter tblC2 dayC2 dayC2).rows = [] ∧
    tblC2.rows = [rowC2] ∧
    getCell rowC2 colDate = Cell.ts ⟨2013, 1, 5, 13, 0⟩ ∧
    dayC2 = ⟨2013, 1, 5⟩ := by
  refine ⟨?_, rfl, rfl, rfl⟩
  simp [dateFilter, tblC2, rowC2, dayC2, colDate, getCell, List.find?, tsGeB, tsLeB,
    Timestamp.le, PlainDate.toTs]

/-- C8: metrics over an empty table. When the empty table declares Date, or
both hour and Total, an internal raise (strftime of NaT / idxmax of an
empty series) collapses the result to the all-default record, which matches
the claimed values. Otherwise the result is computed field by field and
differs from the claim: the three mean fields are NaN (not 0) whenever
their columns are declared, and dominant_component is the first declared
candidate (not "N/A") when one exists. -/
theorem empty_table_metrics_spec (reg ind : String) (cols : List String) :
    (("Date" ∈ cols ∨ ("hour" ∈ cols ∧ "Total" ∈ cols)) →
      metricsOfTable reg ind ⟨cols, []⟩ = defaultMetrics reg ind) ∧
    (("Date" ∉ cols ∧ ¬("hour" ∈ cols ∧ "Total" ∈ cols)) →
      metricsOfTable reg ind ⟨cols, []⟩ =
        { region := reg, industry := ind, total_records := 0,
          avg_energy := if "Total" ∈ cols then none else some 0,
          peak_hour := 0,
          weekend_avg := if "is_weekend" ∈ cols ∧ "Total" ∈ cols then none else some 0,
          weekday_avg := if "is_weekend" ∈ cols ∧ "Total" ∈ cols then none else some 0,
          date_range := naStr,
          dominant_component := (availableCols ⟨cols, []⟩).headD naStr }) := by
  constructor
  · rintro (hDate | hHT)
    · have hdr : dateRangeField ⟨cols, []⟩ = .error () := by
        simp [dateRangeField, colDate, hDate, colCells, parseDates, minTs, maxTs]
      simp [metricsOfTable, computeMetricsCore, hdr]
    · have hpk : peakHourField ⟨cols, []⟩ = .error () := by
        simp [peakHourField, colHour, colTotal, hHT, peakHourE, hourPairs, sortKeys]
      by_cases hDate : "Date" ∈ cols
      · have hdr : dateRangeField ⟨cols, []⟩ = .error () := by
          simp [dateRangeField, colDate, hDate, colCells, parseDates, minTs, maxTs]
        simp [metricsOfTable, computeMetricsCore, hdr]
      · have hdr : dateRangeField ⟨cols, []⟩ = .ok naStr := by
          simp [dateRangeField, colDate, hDate]
        simp [metricsOfTable, computeMetricsCore, hdr, hpk]
  · rintro ⟨hDate, hHT⟩
    have hdr : dateRangeField ⟨cols, []⟩ = .ok naStr := by
      simp [dateRangeField, colDate, hDate]
    have hpk : peakHourField ⟨cols, []⟩ = .ok 0 := by
      simp [peakHourField, colHour, colTotal, hHT]
    have hdom : get_dominant_component ⟨cols, []⟩ = (availableCols ⟨cols, []⟩).headD naStr := by
      cases h : availableCols ⟨cols, []⟩ with
      | nil => simp [get_dominant_component, h]
      | cons c cs =>
        simp only [get_dominant_component, h, List.headD_cons]
        exact idxmaxBy_all_le _ cs c (fun q _ => by
          rw [sumCol_empty, sumCol_empty])
    simp only [metricsOfTable, computeMetricsCore, hdr, hpk, hdom, colTotal, colIsWeekend]
    simp [meanOpt, numsOf, colCells, weekendRows, MetricsResult.mk.injEq, naStr]

/-- C8 witness: an empty table declaring only a Date column collapses to the
all-default record. -/
theorem empty_table_metrics_spec_witness :
    metricsOfTable "Kansai" "Transport" ⟨["Date"], []⟩ = defaultMetrics "Kansai" "Transport" :=
  (empty_table_metrics_spec "Kansai" "Transport" ["Date"]).1 (Or.inl (by simp))

/-- C8 counterexample: over the empty table declaring Total and AC, the
metrics stage returns avg_energy NaN (not 0) and dominant_component "AC"
(not "N/A"), so the claimed all-default values do not hold for every
empty table. -/
theorem empty_table_metrics_not_all_default :
    (metricsOfTable "Kansai" "Transport" ⟨["Total", "AC"], []⟩).avg_energy = none ∧
    (metricsOfTable "Kansai" "Transport" ⟨["Total", "AC"], []⟩).dominant_component = "AC" ∧
    metricsOfTable "Kansai" "Transport" ⟨["Total", "AC"], []⟩ ≠
      defaultMetrics "Kansai" "Transport" := by
  simp [metricsOfTable, computeMetricsCore, dateRangeField, peakHourField, colDate, colHour,
    colTotal, colIsWeekend, colCells, weekendRows, meanOpt, numsOf, get_dominant_component,
    availableCols, energyCols, idxmaxBy, defaultMetrics, naStr]

/-- C7: on every successful run of the metrics body, weekend_avg and
weekday_avg are the pandas means of Total over the rows whose is_weekend
flag is true resp. false when both columns exist, and the literal 0 when
either column is absent; the mean of an empty selection is NaN (none),
not 0. -/
theorem weekend_weekday_avg_spec (reg ind : String) (t : Table) (m : MetricsResult)
    (h : computeMetricsCore reg ind t = .ok m) :
    m.weekend_avg = (if colIsWeekend ∈ t.cols ∧ colTotal ∈ t.cols then
        meanOpt ((weekendRows t true).map (fun r => getCell r colTotal)) else some 0) ∧
    m.weekday_avg = (if colIsWeekend ∈ t.cols ∧ colTotal ∈ t.cols then
        meanOpt ((weekendRows t false).map (fun r => getCell r colTotal)) else some 0) ∧
    meanOpt [] = none := by
  unfold computeMetricsCore at h
  cases hdr : dateRangeField t with
  | error e => rw [hdr] at h; cases h
  | ok dr =>
    rw [hdr] at h
    cases hpk : peakHourField t with
    | error e => rw [hpk] at h; cases h
    | ok pk =>
      rw [hpk] at h
      injection h with h2
      subst h2
      exact ⟨rfl, rfl, by simp [meanOpt, numsOf]⟩

/-- C7 counterexample: a table whose only row has is_weekend false gives
weekend_avg NaN (none), not the claimed 0, although both columns are
present — the empty weekend class does not default to 0. -/
theorem weekend_avg_nan_on_empty_class :
    (metricsOfTable "Kansai" "Transport" tblC7).weekend_avg = none ∧
    (metricsOfTable "Kansai" "Transport" tblC7).weekend_avg ≠ some 0 ∧
    weekendRows tblC7 true = [] ∧
    colIsWeekend ∈ tblC7.cols ∧ colTotal ∈ tblC7.cols := by
  refine ⟨?_, ?_, ?_, by simp [tblC7, colIsWeekend], by simp [tblC7, colTotal]⟩ <;>
    simp [metricsOfTable, computeMetricsCore, dateRangeField, peakHourField, tblC7, colDate,
      colHour, colTotal, colIsWeekend, colCells, weekendRows, meanOpt, numsOf, getCell,
      List.find?, cellNum, Cell.pyEq, get_dominant_component, availableCols, energyCols]

/-- C7 witness: the weekend_avg conclusion instantiated on the concrete
one-row table, with the metrics-body hypothesis discharged by evaluation. -/
theorem weekend_weekday_avg_spec_witness :
    mC7.weekend_avg = (if colIsWeekend ∈ tblC7.cols ∧ colTotal ∈ tblC7.cols then
        meanOpt ((weekendRows tblC7 true).map (fun r => getCell r colTotal)) else some 0) := by
  refine (weekend_weekday_avg_spec "Kansai" "Transport" tblC7 mC7 ?_).1
  simp [computeMetricsCore, dateRangeField, peakHourField, tblC7, mC7, colDate, colHour,
    colTotal, colIsWeekend, colCells, weekendRows, meanOpt, numsOf, getCell, List.find?,
    cellNum, Cell.pyEq, get_dominant_component, availableCols, energyCols, naStr]

/-- C1: `calculate_dashboard_metrics` is total (never raises) and its result
is either the fully computed metrics record of the successfully loaded
table, or the all-default record — a failure in any sub-computation
collapses the whole result, it does not degrade just one field. -/
theorem calculate_dashboard_metrics_ok_or_default (fs : FS) (reg ind : String) :
    (∃ t m, loadForMetrics fs reg ind = .ok t ∧ computeMetricsCore reg ind t = .ok m ∧
      calculate_dashboard_metrics fs reg ind = m) ∨
    calculate_dashboard_metrics fs reg ind = defaultMetrics reg ind := by
  cases hl : loadForMetrics fs reg ind with
  | error e => exact Or.inr (by simp [calculate_dashboard_metrics, hl])
  | ok df =>
    cases hc : computeMetricsCore reg ind df with
    | error e =>
      exact Or.inr (by simp [calculate_dashboard_metrics, metricsOfTable, hl, hc])
    | ok m =>
      exact Or.inl ⟨df, m, rfl, hc, by simp [calculate_dashboard_metrics, metricsOfTable, hl, hc]⟩

/-- C1 counterexample: a one-row table with an unparseable Date and a clean
Total column. The date_range sub-computation fails, and the returned
record has total_records 0 and avg_energy 0 although the table has one
row with mean Total 10 — the failure was not isolated to date_range. -/
theorem date_parse_failure_zeroes_all_fields :
    calculate_dashboard_metrics fsC1 "Kansai" "Transport" = defaultMetrics "Kansai" "Transport" ∧
    tblC1.rows.length = 1 ∧
    meanOpt (colCells tblC1 colTotal) = some 10 ∧
    (calculate_dashboard_metrics fsC1 "Kansai" "Transport").total_records = 0 ∧
    (calculate_dashboard_metrics fsC1 "Kansai" "Transport").avg_energy = some 0 := by
  have hcalc : calculate_dashboard_metrics fsC1 "Kansai" "Transport" =
      defaultMetrics "Kansai" "Transport" := by
    simp [calculate_dashboard_metrics, loadForMetrics, metricsPath, strLower, fsC1, tblC1,
      metricsOfTable, computeMetricsCore, dateRangeField, colDate, colCells, getCell,
      List.find?, parseDates, parseTs]
  refine ⟨hcalc, rfl, ?_, by rw [hcalc]; rfl, by rw [hcalc]; rfl⟩
  simp [meanOpt, numsOf, colCells, tblC1, getCell, List.find?, cellNum, colTotal, colDate]

/-- C3: on a table whose one-hot Building Type_Tenant column holds the flags
1 and 0, selecting Tenant keeps nothing under data_loader.filter_data
(which compares the column against the selector string), while the sidebar
filter keeps exactly the flag-1 row as the spec describes. -/
theorem filter_data_building_type_mismatch :
    (filter_data tblC3 fltC3).rows = [] ∧
    (buildingFilter tblC3 indTenant).rows = [[(btCol indTenant, Cell.num 1)]] ∧
    tblC3.rows.length = 2 := by
  refine ⟨?_, ?_, rfl⟩
  · simp [filter_data, tblC3, fltC3, btCol, indTenant, allStr, getCell, List.find?, Cell.pyEq]
  · simp [buildingFilter, tblC3, btCol, indTenant, allStr, getCell, List.find?, Cell.pyEq]

/-- C4: `load_dashboard_data` reads the plain path for every region, and
`calculate_dashboard_metrics` reads the plain path only for non-Kanto
regions; for Kanto it reads the sample-prefixed path. For a single
industry both loaders consult exactly their one path. -/
theorem path_convention_spec (reg ind : String) (fs : FS) :
    dashPath reg ind =
      "data/processed/" ++ strLower reg ++ "_" ++ strLower ind ++ ".parquet" ∧
    (strLower reg ≠ "kanto" → metricsPath reg ind = dashPath reg ind) ∧
    (strLower reg = "kanto" → metricsPath reg ind =
      "data/processed/sample_" ++ strLower reg ++ "_" ++ strLower ind ++ ".parquet") ∧
    (strLower ind ≠ "all" →
      load_dashboard_data fs reg ind = fs (dashPath reg ind) ∧
      (∀ d, fs (metricsPath reg ind) = some d → loadForMetrics fs reg ind = Except.ok d) ∧
      (fs (metricsPath reg ind) = none → loadForMetrics fs reg ind = Except.error ())) := by
  refine ⟨rfl, ?_, ?_, ?_⟩
  · intro h
    simp [metricsPath, dashPath, h]
  · intro h
    simp [metricsPath, h]
  · intro h
    refine ⟨by simp [load_dashboard_data, h], ?_, ?_⟩
    · intro d hd
      simp [loadForMetrics, h, hd]
    · intro hd
      simp [loadForMetrics, h, hd]

/-- C4 witness: the Kanto sample path instantiated concretely. -/
theorem path_convention_spec_witness :
    metricsPath "Kanto" "Transport" =
      "data/processed/sample_" ++ strLower "Kanto" ++ "_" ++ strLower "Transport" ++ ".parquet" :=
  (path_convention_spec "Kanto" "Transport" fsNone).2.2.1 (by decide)

/-- C4 counterexample: for Kanto Transport the metrics loader uses the
sample-prefixed file, not the claimed plain path — it even fails when only
the plain path is readable. -/
theorem kanto_metrics_path_is_sampled :
    metricsPath "Kanto" "Transport" = "data/processed/sample_kanto_transport.parquet" ∧
    metricsPath "Kanto" "Transport" ≠ "data/processed/kanto_transport.parquet" ∧
    metricsPath "Kansai" "Transport" = "data/processed/kansai_transport.parquet" ∧
    loadForMetrics fsC4 "Kanto" "Transport" = .error () := by
  refine ⟨by decide, by decide, by decide, ?_⟩
  simp [loadForMetrics, fsC4, metricsPath, strLower]

/-- C9: the batch metrics list has six entries, entry j is exactly the
independent computation for the j-th fixed combination, and a load failure
for one combination makes that slot the default record while every slot
keeps being its own combination's computation. -/
theorem get_all_dashboard_metrics_spec (fs : FS) :
    (get_all_dashboard_metrics fs).length = 6 ∧
    (∀ j : Nat, (get_all_dashboard_metrics fs)[j]? =
      (combinations[j]?).map (fun c => calculate_dashboard_metrics fs c.1 c.2)) ∧
    (∀ (j : Nat) (c : String × String), combinations[j]? = some c →
      loadForMetrics fs c.1 c.2 = .error () →
      (get_all_dashboard_metrics fs)[j]? = some (defaultMetrics c.1 c.2)) := by
  refine ⟨by simp [get_all_dashboard_metrics, combinations], ?_, ?_⟩
  · intro j
    simp [get_all_dashboard_metrics]
  · intro j c hc herr
    simp [get_all_dashboard_metrics, hc, calculate_dashboard_metrics, herr]

/-- C9 witness: with no readable files, slot 0 is the default record for
Kansai Transport. -/
theorem get_all_dashboard_metrics_spec_witness :
    (get_all_dashboard_metrics fsNone)[0]? = some (defaultMetrics "Kansai" "Transport") :=
  (get_all_dashboard_metrics_spec fsNone).2.2 0 ("Kansai", "Transport") (by decide)
    (by simp [loadForMetrics, fsNone, strLower])

/-- C10: for every file system and inputs, the metrics result is a record of
exactly the nine fixed fields, and its region and industry fields are the
input arguments verbatim, on the success and the failure path alike. -/
theorem calculate_dashboard_metrics_shape (fs : FS) (reg ind : String) :
    ∃ tr av pk we wd dr dc,
      calculate_dashboard_metrics fs reg ind =
        { region := reg, industry := ind, total_records := tr, avg_energy := av,
          peak_hour := pk, weekend_avg := we, weekday_avg := wd, date_range := dr,
          dominant_component := dc } := by
  cases hl : loadForMetrics fs reg ind with
  | error e =>
    exact ⟨0, some 0, 0, some 0, some 0, naStr, naStr,
      by simp [calculate_dashboard_metrics, hl, defaultMetrics]⟩
  | ok df =>
    cases hc : computeMetricsCore reg ind df with
    | error e =>
      exact ⟨0, some 0, 0, some 0, some 0, naStr, naStr,
        by simp [calculate_dashboard_metrics, metricsOfTable, hl, hc, defaultMetrics]⟩
    | ok m =>
      have hm : calculate_dashboard_metrics fs reg ind = m := by
        simp [calculate_dashboard_metrics, metricsOfTable, hl, hc]
      have hr : m.region = reg ∧ m.industry = ind := by
        unfold computeMetricsCore at hc
        cases hdr : dateRangeField df with
        | error e2 => rw [hdr] at hc; cases hc
        | ok dr =>
          rw [hdr] at hc
          cases hpk : peakHourField df with
          | error e2 => rw [hpk] at hc; cases hc
          | ok pk =>
            rw [hpk] at hc
            injection hc with h2
            subst h2
            exact ⟨rfl, rfl⟩
      refine ⟨m.total_records, m.avg_energy, m.peak_hour, m.weekend_avg, m.weekday_avg,
        m.date_range, m.dominant_component, ?_⟩
      rw [hm, ← hr.1, ← hr.2]
